import Mathlib

/-!
Verification of the access-control core of the FastAPI-Boilerplate backend
(app/models/auth, app/models/user, app/models/post, app/api/v1/admin).
The guard and CRUD functions under app/ are embedded directly; the
collaborators they call (token codec, persistence find/save/get, the rate
limiter, password hashing, schemas) live outside the given sources and are
modelled from the specification, each marked by a doc comment starting
with Modelled from the spec.
-/

namespace AccessControl

/-- Modelled from the spec: the closed Role enumeration (ADMIN, USER, RESET)
from app.models.auth.role, which is not among the given sources. -/
inductive Role where
  | ADMIN
  | USER
  | RESET
deriving DecidableEq, Repr

/-- Modelled from the spec: the stable error kinds of section 7
(unauthorized, forbidden, conflict, not_found, rate_limited), raised by
app.functions.exceptions, which is not among the given sources. -/
inductive Err where
  | unauthorized
  | forbidden
  | conflict
  | notFound
  | rateLimited
deriving DecidableEq, Repr

/-- Modelled from the spec: the password hashing primitive is an external
collaborator; any deterministic function standing for the hash suffices. -/
def hashPassword (p : String) : String := "hashed:" ++ p

/-- Modelled from the spec: the Subject (User) record of section 3 —
identifier, email, hashed password, verification flag, granted scopes.
The User ORM model is not among the given sources. -/
structure User where
  id : Nat
  name : String
  email : String
  hashed_password : String
  verified : Bool
  scope : List Role
deriving DecidableEq, Repr

/-- Modelled from the spec: compare a plaintext password against the
stored hash (User.check_password, not among the given sources). -/
def User.check_password (u : User) (p : String) : Bool :=
  u.hashed_password == hashPassword p

/-- Modelled from the spec: a Resource (Post) owned by exactly one
Subject via user_id (the Post ORM model is not among the given sources). -/
structure Post where
  id : Nat
  user_id : Nat
deriving DecidableEq, Repr

/-- The relational store the persistence collaborator acts on: the users
and posts tables. -/
structure DB where
  users : List User
  posts : List Post
deriving DecidableEq, Repr

/-- Modelled from the spec: persistence find of a user by email with
raise_=False — returns the matching row or none. -/
def User.find (db : DB) (email : String) : Option User :=
  db.users.find? (fun u => u.email == email)

/-- Modelled from the spec: persistence get of a user by id — the row or
a not_found failure. -/
def User.get (db : DB) (uid : Nat) : Except Err User :=
  match db.users.find? (fun u => u.id == uid) with
  | some u => .ok u
  | none => .error .notFound

/-- Modelled from the spec: save appends the new row to the table. -/
def User.save (db : DB) (u : User) : DB :=
  { db with users := db.users ++ [u] }

/-! ## Token codec (modelled from the spec, section 4.1) -/

/-- Printable label of a role, used by the signature model. -/
def Role.str : Role → String
  | .ADMIN => "admin"
  | .USER => "user"
  | .RESET => "reset"

/-- Modelled from the spec: the decoded token payload
(subject_id, scopes, expiry) of sections 4.1 and 6 (TokenDecode /
app.models.auth.token are not among the given sources). -/
structure TokenPayload where
  id : Nat
  scope : List Role
  exp : Nat
deriving DecidableEq, Repr

/-- Modelled from the spec: the signature over the payload. The signing
key is fixed at startup, so the signature is a deterministic function of
the payload. -/
def Token.sign (p : TokenPayload) : String :=
  "sig:" ++ toString p.id ++ ":"
    ++ String.intercalate "," (p.scope.map Role.str)
    ++ ":" ++ toString p.exp

/-- Modelled from the spec: the opaque signed token string decomposed into
its payload and its signature. -/
structure EncodedToken where
  payload : TokenPayload
  sig : String
deriving DecidableEq, Repr

/-- Modelled from the spec: the configured token lifetime (positive). -/
def EXPIRE : Nat := 30

/-- Modelled from the spec: encode(subject_id, scopes) produces a signed,
time-bounded credential expiring EXPIRE after now. -/
def Token.encode (id : Nat) (scope : List Role) (now : Nat) : EncodedToken :=
  let p : TokenPayload := ⟨id, scope, now + EXPIRE⟩
  ⟨p, Token.sign p⟩

/-- Scope-set intersection test: true when the two lists share a role. -/
def intersects (a b : List Role) : Bool :=
  a.any (fun r => b.contains r)

/-- Modelled from the spec: decode verifies signature and expiration
(unauthorized kind on failure), then verifies that the decoded scope set
intersects the required scopes when any are required (forbidden kind on
an empty intersection), and otherwise yields the payload. -/
def Token.decode (tok : EncodedToken) (required : List Role) (now : Nat) :
    Except Err TokenPayload :=
  if tok.sig ≠ Token.sign tok.payload then .error .unauthorized
  else if tok.payload.exp ≤ now then .error .unauthorized
  else if required ≠ [] ∧ intersects tok.payload.scope required = false then
    .error .forbidden
  else .ok tok.payload

/-! ## Authorization gate (app/models/auth/functions.py) -/

/-- From app/models/auth/functions.py, authorize: decode the bearer token
against the scopes the operation requires and yield the decoded payload. -/
def authorize (tok : EncodedToken) (required : List Role) (now : Nat) :
    Except Err TokenPayload :=
  Token.decode tok required now

/-! ## Rate limiter (modelled from the spec, section 4.4) -/

/-- Modelled from the spec: the configured call threshold per window. -/
def RATE_THRESHOLD : Nat := 5

/-- Modelled from the spec: the configured rolling window length. -/
def RATE_WINDOW : Nat := 60

/-- Modelled from the spec: the keyed counter store of the rate limiter —
recorded (subject key, timestamp) pairs. -/
structure RLState where
  calls : List (Nat × Nat)
deriving DecidableEq, Repr

/-- Number of recorded calls for a key whose timestamps fall within the
rolling window ending at now. -/
def recentCount (st : RLState) (key : Nat) (now : Nat) : Nat :=
  (st.calls.filter (fun c => c.1 == key && now < c.2 + RATE_WINDOW)).length

/-- Modelled from the spec: check(subject_key) fails with the
too-many-requests kind once the threshold is reached within the rolling
window, and otherwise records the call timestamp under the key
(app.functions.limiter is not among the given sources). -/
def rate_limiter (st : RLState) (key : Nat) (now : Nat) : Except Err RLState :=
  if RATE_THRESHOLD ≤ recentCount st key now then .error .rateLimited
  else .ok ⟨(key, now) :: st.calls⟩

/-- From app/models/auth/functions.py, authorize_limited: first the plain
authorize guard runs; only when it yields a decoded token is the rate
limiter consulted, keyed by the subject id of that token, and only when
the limiter admits the call is the token yielded. A failure of either
step propagates and leaves the limiter state untouched. -/
def authorize_limited (tok : EncodedToken) (required : List Role) (now : Nat)
    (st : RLState) : Except Err TokenPayload × RLState :=
  match authorize tok required now with
  | .error e => (.error e, st)
  | .ok td =>
    match rate_limiter st td.id now with
    | .error e => (.error e, st)
    | .ok st2 => (.ok td, st2)

/-! ## Authenticator (app/models/auth/functions.py) -/

/-- Username and password of an OAuth2 password request form. -/
structure Credentials where
  username : String
  password : String
deriving DecidableEq, Repr

/-- From app/models/auth/functions.py, Authenticate.__call__: look up the
user by email with raise_=False; if there is no user or the password does
not check, fail unauthorized_basic; else if the user is not verified,
fail forbidden; else return the user. -/
def Authenticate.call (db : DB) (cred : Credentials) : Except Err User :=
  match User.find db cred.username with
  | none => .error .unauthorized
  | some user =>
    if user.check_password cred.password = false then .error .unauthorized
    else if user.verified = false then .error .forbidden
    else .ok user

/-- From app/models/auth/functions.py, Authenticate.to_token:
authenticate the credentials, then encode a token carrying exactly the
id and the stored scope set of the authenticated user. -/
def Authenticate.to_token (db : DB) (cred : Credentials) (now : Nat) :
    Except Err EncodedToken :=
  match Authenticate.call db cred with
  | .error e => .error e
  | .ok user => .ok (Token.encode user.id user.scope now)

/-! ## User functions (app/models/user/functions.py) -/

/-- Modelled from the spec: the process configuration holding the admin
bootstrap credentials (app.config is not among the given sources). -/
structure Config where
  ADMIN_EMAIL : String
  ADMIN_PASSWORD : String
deriving Repr

/-- From app/models/user/functions.py, create_admin_user: find a user by
the configured admin email with raise_=False; when absent, construct and
save a user named admin with the configured email and password, verified
true and scope [ADMIN]; return the found or created user. The fresh
identifier the store assigns to a new row is passed explicitly. -/
def create_admin_user (config : Config) (db : DB) (freshId : Nat) :
    User × DB :=
  match User.find db config.ADMIN_EMAIL with
  | some admin => (admin, db)
  | none =>
    let admin : User :=
      ⟨freshId, "admin", config.ADMIN_EMAIL,
        hashPassword config.ADMIN_PASSWORD, true, [Role.ADMIN]⟩
    (admin, User.save db admin)

/-- Side effects of create_user recorded in order: the save of the new
row, then the requested reset-password email (a fire-and-forget call to
the email collaborator of spec section 6). -/
inductive Ev where
  | saved (uid : Nat)
  | emailRequested (email : String)
deriving DecidableEq, Repr

/-- Modelled from the spec: the registration payload UserIn
(app.models.user.schemas is not among the given sources); a new subject
starts unverified with no granted scopes. -/
structure UserIn where
  name : String
  email : String
  password : String
deriving DecidableEq, Repr

/-- From app/models/user/functions.py, create_user: if a user with the
requested email already exists, fail with conflict and change nothing;
otherwise save the new user and, when send_email is true (its default),
request the reset-password email for the saved email afterwards. The
returned trace lists the side effects in program order. -/
def create_user (db : DB) (user_in : UserIn) (freshId : Nat)
    (send_email : Bool := true) : Except Err User × DB × List Ev :=
  match User.find db user_in.email with
  | some _ => (.error .conflict, db, [])
  | none =>
    let user : User :=
      ⟨freshId, user_in.name, user_in.email,
        hashPassword user_in.password, false, []⟩
    let db2 := User.save db user
    let evs := [Ev.saved user.id]
      ++ (if send_email then [Ev.emailRequested user.email] else [])
    (.ok user, db2, evs)

/-- Modelled from the spec: the partial-update payload UserUpdate — every
field optional; model_dump with exclude_none drops the absent ones
(app.models.user.schemas is not among the given sources). -/
structure UserUpdate where
  name : Option String
  email : Option String
  password : Option String
  verified : Option Bool
  scope : Option (List Role)
deriving DecidableEq, Repr

/-- Modelled from the spec: the persistence update applies exactly the
provided fields to the row and leaves every other field, the identifier
included, at its prior value. -/
def User.update (u : User) (upd : UserUpdate) : User :=
  { u with
    name := upd.name.getD u.name
    email := upd.email.getD u.email
    hashed_password := (upd.password.map hashPassword).getD u.hashed_password
    verified := upd.verified.getD u.verified
    scope := upd.scope.getD u.scope }

/-- From app/models/user/functions.py, update_user: load the user by id
(not_found when absent), then apply the update payload with the None
fields excluded; the store keeps every other row unchanged. -/
def update_user (db : DB) (uid : Nat) (upd : UserUpdate) :
    Except Err (User × DB) :=
  match User.get db uid with
  | .error e => .error e
  | .ok u =>
    let u2 := User.update u upd
    .ok (u2, { db with users := db.users.map (fun v => if v.id == uid then u2 else v) })

/-! ## Post functions (app/models/post/functions.py) -/

/-- Modelled from the spec: persistence find of a post constrained by id
and by owning user_id, with raise_=True — a miss is a not_found failure.
The Post ORM find is not among the given sources; the constraint set is
exactly the one load_post passes. -/
def Post.find (db : DB) (post_id : Nat) (user_id : Nat) : Except Err Post :=
  match db.posts.find? (fun p => p.id == post_id && p.user_id == user_id) with
  | some p => .ok p
  | none => .error .notFound

/-- From app/models/post/functions.py, load_post: look the post up
constrained to id = post_id and user_id = the id of the decoded token. -/
def load_post (db : DB) (post_id : Nat) (token : TokenPayload) :
    Except Err Post :=
  Post.find db post_id token.id

/-- From app/models/post/functions.py, load_post_limited: same lookup as
load_post, with the token supplied by the rate-limited guard. -/
def load_post_limited (db : DB) (post_id : Nat) (token : TokenPayload) :
    Except Err Post :=
  Post.find db post_id token.id

/-! ## Theorems -/

/-- Claim C3: for every subject id and every scope set drawn from the Role
enumeration, decoding the token produced by encode for that pair, with the
required scopes equal to that same scope set, succeeds and returns the same
subject id and the same scope set. -/
theorem c3_encode_decode_round_trip (id : Nat) (scope : List Role) (now : Nat) :
    authorize (Token.encode id scope now) scope now =
      Except.ok ⟨id, scope, now + EXPIRE⟩ := by
  have h1 : ¬ ((Token.encode id scope now).sig ≠
      Token.sign (Token.encode id scope now).payload) := by
    simp [Token.encode]
  have h2 : ¬ ((Token.encode id scope now).payload.exp ≤ now) := by
    simp [Token.encode, EXPIRE]
  have h3 : ¬ (scope ≠ [] ∧
      intersects (Token.encode id scope now).payload.scope scope = false) := by
    rintro ⟨hne, hint⟩
    cases scope with
    | nil => exact hne rfl
    | cons r rs => simp [Token.encode, intersects] at hint
  unfold authorize Token.decode
  rw [if_neg h1, if_neg h2, if_neg h3]
  rfl

/-- Claim C4: decode fails with the unauthorized kind whenever the signature
check fails or the expiry has passed; it fails with the forbidden kind when
the required scope set is non-empty and disjoint from the token scope set;
and it succeeds with the payload when signature and expiry are valid and
either no scopes were required or the intersection is non-empty. -/
theorem c4_decode_failure_kinds (tok : EncodedToken) (required : List Role)
    (now : Nat) :
    (tok.sig ≠ Token.sign tok.payload ∨ tok.payload.exp ≤ now →
      Token.decode tok required now = Except.error Err.unauthorized) ∧
    (tok.sig = Token.sign tok.payload → now < tok.payload.exp →
      required ≠ [] → intersects tok.payload.scope required = false →
      Token.decode tok required now = Except.error Err.forbidden) ∧
    (tok.sig = Token.sign tok.payload → now < tok.payload.exp →
      (required = [] ∨ intersects tok.payload.scope required = true) →
      Token.decode tok required now = Except.ok tok.payload) := by
  unfold Token.decode
  refine ⟨?_, ?_, ?_⟩
  · rintro (hsig | hexp)
    · rw [if_pos hsig]
    · by_cases hs : tok.sig ≠ Token.sign tok.payload
      · rw [if_pos hs]
      · rw [if_neg hs, if_pos hexp]
  · intro hsig hexp hreq hint
    rw [if_neg (by simp [hsig]), if_neg (by omega), if_pos ⟨hreq, hint⟩]
  · intro hsig hexp hor
    rw [if_neg (by simp [hsig]), if_neg (by omega), if_neg ?_]
    rintro ⟨hne, hf⟩
    cases hor with
    | inl h => exact hne h
    | inr h => rw [h] at hf; exact Bool.noConfusion hf

/-- Witness for C4 at concrete inputs: a forged signature is unauthorized,
a disjoint required scope set is forbidden, an intersecting one succeeds. -/
theorem c4_decode_failure_kinds_witness :
    Token.decode ⟨⟨7, [Role.ADMIN], 130⟩, "forged"⟩ [Role.ADMIN] 100 =
      Except.error Err.unauthorized ∧
    Token.decode (Token.encode 7 [Role.USER] 100) [Role.ADMIN] 100 =
      Except.error Err.forbidden ∧
    Token.decode (Token.encode 7 [Role.USER] 100) [Role.USER] 100 =
      Except.ok ⟨7, [Role.USER], 130⟩ :=
  ⟨(c4_decode_failure_kinds ⟨⟨7, [Role.ADMIN], 130⟩, "forged"⟩ [Role.ADMIN] 100).1
      (Or.inl (by decide)),
   (c4_decode_failure_kinds (Token.encode 7 [Role.USER] 100) [Role.ADMIN] 100).2.1
      (by decide) (by decide) (by decide) (by decide),
   (c4_decode_failure_kinds (Token.encode 7 [Role.USER] 100) [Role.USER] 100).2.2
      (by decide) (by decide) (Or.inr (by decide))⟩

/-- Claim C2: credential authentication returns the subject on a correct
email and password for a verified subject; fails unauthorized on a wrong
password; fails with the very same unauthorized error on an unknown email;
and fails forbidden on correct credentials for an unverified subject. -/
theorem c2_authenticate_outcomes (db : DB) (cred : Credentials) :
    (User.find db cred.username = none →
      Authenticate.call db cred = Except.error Err.unauthorized) ∧
    (∀ u, User.find db cred.username = some u →
      (u.check_password cred.password = false →
        Authenticate.call db cred = Except.error Err.unauthorized) ∧
      (u.check_password cred.password = true → u.verified = false →
        Authenticate.call db cred = Except.error Err.forbidden) ∧
      (u.check_password cred.password = true → u.verified = true →
        Authenticate.call db cred = Except.ok u)) := by
  unfold Authenticate.call
  constructor
  · intro h; rw [h]
  · intro u h; rw [h]
    refine ⟨?_, ?_, ?_⟩
    · intro hp; simp [hp]
    · intro hp hv; simp [hp, hv]
    · intro hp hv; simp [hp, hv]

/-- Witness for C2 at a concrete store: the four credential outcomes. -/
theorem c2_authenticate_outcomes_witness :
    Authenticate.call
        ⟨[⟨1, "a", "a@x", hashPassword "pw", true, [Role.USER]⟩,
          ⟨2, "b", "b@x", hashPassword "pw2", false, []⟩], []⟩
        ⟨"a@x", "pw"⟩ =
      Except.ok ⟨1, "a", "a@x", hashPassword "pw", true, [Role.USER]⟩ ∧
    Authenticate.call
        ⟨[⟨1, "a", "a@x", hashPassword "pw", true, [Role.USER]⟩,
          ⟨2, "b", "b@x", hashPassword "pw2", false, []⟩], []⟩
        ⟨"a@x", "wrong"⟩ =
      Except.error Err.unauthorized ∧
    Authenticate.call
        ⟨[⟨1, "a", "a@x", hashPassword "pw", true, [Role.USER]⟩,
          ⟨2, "b", "b@x", hashPassword "pw2", false, []⟩], []⟩
        ⟨"nobody@x", "pw"⟩ =
      Except.error Err.unauthorized ∧
    Authenticate.call
        ⟨[⟨1, "a", "a@x", hashPassword "pw", true, [Role.USER]⟩,
          ⟨2, "b", "b@x", hashPassword "pw2", false, []⟩], []⟩
        ⟨"b@x", "pw2"⟩ =
      Except.error Err.forbidden :=
  ⟨((c2_authenticate_outcomes _ ⟨"a@x", "pw"⟩).2
      ⟨1, "a", "a@x", hashPassword "pw", true, [Role.USER]⟩ (by decide)).2.2
      (by decide) (by decide),
   ((c2_authenticate_outcomes _ ⟨"a@x", "wrong"⟩).2
      ⟨1, "a", "a@x", hashPassword "pw", true, [Role.USER]⟩ (by decide)).1 (by decide),
   (c2_authenticate_outcomes _ ⟨"nobody@x", "pw"⟩).1 (by decide),
   ((c2_authenticate_outcomes _ ⟨"b@x", "pw2"⟩).2
      ⟨2, "b", "b@x", hashPassword "pw2", false, []⟩ (by decide)).2.1
      (by decide) (by decide)⟩

/-- Claim C9: a token issued by Authenticate.to_token carries exactly the
id and the full stored scope set of the authenticated subject — issuance
never narrows, widens or parameterizes the granted scopes. -/
theorem c9_to_token_carries_stored_scope (db : DB) (cred : Credentials)
    (now : Nat) (u : User) (h : Authenticate.call db cred = Except.ok u) :
    Authenticate.to_token db cred now =
      Except.ok (Token.encode u.id u.scope now) ∧
    (Token.encode u.id u.scope now).payload.scope = u.scope ∧
    (Token.encode u.id u.scope now).payload.id = u.id := by
  unfold Authenticate.to_token
  rw [h]
  exact ⟨rfl, rfl, rfl⟩

/-- Witness for C9: the token issued to a concrete verified subject
carries that subject id and scope set. -/
theorem c9_to_token_carries_stored_scope_witness :
    Authenticate.to_token
        ⟨[⟨1, "a", "a@x", hashPassword "pw", true, [Role.USER]⟩], []⟩
        ⟨"a@x", "pw"⟩ 100 =
      Except.ok (Token.encode 1 [Role.USER] 100) ∧
    (Token.encode 1 [Role.USER] 100).payload.scope = [Role.USER] ∧
    (Token.encode 1 [Role.USER] 100).payload.id = 1 :=
  c9_to_token_carries_stored_scope
    ⟨[⟨1, "a", "a@x", hashPassword "pw", true, [Role.USER]⟩], []⟩
    ⟨"a@x", "pw"⟩ 100
    ⟨1, "a", "a@x", hashPassword "pw", true, [Role.USER]⟩ rfl

/-- Claim C1: for a subject holding a valid token and a post owned by a
different subject, load_post and load_post_limited fail with not_found —
the lookup is constrained at the data access to posts whose user_id equals
the token subject id, so a correct resource id does not help. Post ids are
assumed unique across the store. -/
theorem c1_load_post_ownership (db : DB) (etok : EncodedToken)
    (required : List Role) (now : Nat) (td : TokenPayload) (p : Post)
    (_hauth : authorize etok required now = Except.ok td)
    (huniq : ∀ q ∈ db.posts, ∀ r ∈ db.posts, q.id = r.id → q = r)
    (hp : p ∈ db.posts) (hown : p.user_id ≠ td.id) :
    load_post db p.id td = Except.error Err.notFound ∧
    load_post_limited db p.id td = Except.error Err.notFound := by
  have hfind : db.posts.find? (fun q => q.id == p.id && q.user_id == td.id) =
      none := by
    rw [List.find?_eq_none]
    intro q hq
    simp only [Bool.and_eq_true, beq_iff_eq, not_and]
    intro hid
    have hqp : q = p := huniq q hq p hp hid
    rw [hqp]
    exact hown
  constructor
  · unfold load_post Post.find
    rw [hfind]
  · unfold load_post_limited Post.find
    rw [hfind]

/-- Witness for C1: subject 1 holds a valid token, the only post is owned
by subject 2, and both lookups return not_found. -/
theorem c1_load_post_ownership_witness :
    load_post ⟨[], [⟨10, 2⟩]⟩ 10 ⟨1, [Role.USER], 130⟩ =
      Except.error Err.notFound ∧
    load_post_limited ⟨[], [⟨10, 2⟩]⟩ 10 ⟨1, [Role.USER], 130⟩ =
      Except.error Err.notFound :=
  c1_load_post_ownership ⟨[], [⟨10, 2⟩]⟩ (Token.encode 1 [Role.USER] 100)
    [Role.USER] 100 ⟨1, [Role.USER], 130⟩ ⟨10, 2⟩
    rfl (by decide) (by decide) (by decide)

/-- Claim C5: admin bootstrap is idempotent — with no subject at the
configured admin email, exactly one subject is created and returned,
carrying the configured email and password, verified true and the ADMIN
scope; with such a subject present, the store is unchanged and the
existing subject is returned. -/
theorem c5_admin_bootstrap_idempotent (config : Config) (db : DB)
    (freshId : Nat) :
    (User.find db config.ADMIN_EMAIL = none →
      create_admin_user config db freshId =
        (⟨freshId, "admin", config.ADMIN_EMAIL,
            hashPassword config.ADMIN_PASSWORD, true, [Role.ADMIN]⟩,
          { db with users := db.users ++
            [⟨freshId, "admin", config.ADMIN_EMAIL,
                hashPassword config.ADMIN_PASSWORD, true, [Role.ADMIN]⟩] })) ∧
    (∀ a, User.find db config.ADMIN_EMAIL = some a →
      create_admin_user config db freshId = (a, db)) := by
  unfold create_admin_user
  constructor
  · intro h; rw [h]; rfl
  · intro a h; rw [h]

/-- Witness for C5 on a concrete store: the first run appends exactly the
admin subject, the second run returns it and leaves the store as is. -/
theorem c5_admin_bootstrap_idempotent_witness :
    create_admin_user ⟨"adm@x", "s3cret"⟩ ⟨[], []⟩ 1 =
      (⟨1, "admin", "adm@x", hashPassword "s3cret", true, [Role.ADMIN]⟩,
        ⟨[⟨1, "admin", "adm@x", hashPassword "s3cret", true, [Role.ADMIN]⟩], []⟩) ∧
    create_admin_user ⟨"adm@x", "s3cret"⟩
        ⟨[⟨1, "admin", "adm@x", hashPassword "s3cret", true, [Role.ADMIN]⟩], []⟩ 2 =
      (⟨1, "admin", "adm@x", hashPassword "s3cret", true, [Role.ADMIN]⟩,
        ⟨[⟨1, "admin", "adm@x", hashPassword "s3cret", true, [Role.ADMIN]⟩], []⟩) :=
  ⟨(c5_admin_bootstrap_idempotent ⟨"adm@x", "s3cret"⟩ ⟨[], []⟩ 1).1 (by decide),
   (c5_admin_bootstrap_idempotent ⟨"adm@x", "s3cret"⟩
      ⟨[⟨1, "admin", "adm@x", hashPassword "s3cret", true, [Role.ADMIN]⟩], []⟩ 2).2
      ⟨1, "admin", "adm@x", hashPassword "s3cret", true, [Role.ADMIN]⟩ (by decide)⟩

/-- Claim C6: the rate-limited guard never consults the limiter when the
token fails to decode — the failure propagates with the limiter state
untouched; after a successful decode the limiter is consulted keyed by the
decoded subject id, and once the threshold of recent calls for that
subject is reached the guard fails with the rate_limited kind instead of
yielding the token, while below the threshold the token is yielded and the
call is recorded under that subject id. -/
theorem c6_rate_limited_guard (tok : EncodedToken) (required : List Role)
    (now : Nat) (st : RLState) :
    (∀ e, authorize tok required now = Except.error e →
      authorize_limited tok required now st = (Except.error e, st)) ∧
    (∀ td, authorize tok required now = Except.ok td →
      (RATE_THRESHOLD ≤ recentCount st td.id now →
        authorize_limited tok required now st =
          (Except.error Err.rateLimited, st)) ∧
      (recentCount st td.id now < RATE_THRESHOLD →
        authorize_limited tok required now st =
          (Except.ok td, ⟨(td.id, now) :: st.calls⟩))) := by
  constructor
  · intro e h
    unfold authorize_limited
    rw [h]
  · intro td h
    have hred : authorize_limited tok required now st =
        (match rate_limiter st td.id now with
          | .error e => (Except.error e, st)
          | .ok st2 => (Except.ok td, st2)) := by
      unfold authorize_limited
      rw [h]
    constructor
    · intro hle
      rw [hred]
      unfold rate_limiter
      rw [if_pos hle]
    · intro hlt
      rw [hred]
      unfold rate_limiter
      rw [if_neg (Nat.not_le.mpr hlt)]

/-- Witness for C6: an undecodable token leaves the limiter state as is; a
subject at the threshold is refused with rate_limited; a fresh subject is
admitted and recorded. -/
theorem c6_rate_limited_guard_witness :
    authorize_limited ⟨⟨1, [], 200⟩, "forged"⟩ [] 100 ⟨[(9, 99)]⟩ =
      (Except.error Err.unauthorized, ⟨[(9, 99)]⟩) ∧
    authorize_limited (Token.encode 1 [Role.USER] 100) [] 100
        ⟨[(1, 99), (1, 98), (1, 97), (1, 96), (1, 95)]⟩ =
      (Except.error Err.rateLimited,
        ⟨[(1, 99), (1, 98), (1, 97), (1, 96), (1, 95)]⟩) ∧
    authorize_limited (Token.encode 1 [Role.USER] 100) [] 100 ⟨[(9, 99)]⟩ =
      (Except.ok ⟨1, [Role.USER], 130⟩, ⟨[(1, 100), (9, 99)]⟩) :=
  ⟨(c6_rate_limited_guard ⟨⟨1, [], 200⟩, "forged"⟩ [] 100 ⟨[(9, 99)]⟩).1
      Err.unauthorized rfl,
   ((c6_rate_limited_guard (Token.encode 1 [Role.USER] 100) [] 100
        ⟨[(1, 99), (1, 98), (1, 97), (1, 96), (1, 95)]⟩).2
      ⟨1, [Role.USER], 130⟩ rfl).1 (by decide),
   ((c6_rate_limited_guard (Token.encode 1 [Role.USER] 100) [] 100 ⟨[(9, 99)]⟩).2
      ⟨1, [Role.USER], 130⟩ rfl).2 (by decide)⟩

/-- Claim C7: update_user changes only the fields the payload provides;
every field absent from the payload, the identifier included, keeps its
prior value. -/
theorem c7_partial_update (db : DB) (uid : Nat) (upd : UserUpdate)
    (u u2 : User) (db2 : DB)
    (hget : User.get db uid = Except.ok u)
    (hupd : update_user db uid upd = Except.ok (u2, db2)) :
    u2.id = u.id ∧
    (upd.name = none → u2.name = u.name) ∧
    (∀ v, upd.name = some v → u2.name = v) ∧
    (upd.email = none → u2.email = u.email) ∧
    (∀ v, upd.email = some v → u2.email = v) ∧
    (upd.password = none → u2.hashed_password = u.hashed_password) ∧
    (∀ v, upd.password = some v → u2.hashed_password = hashPassword v) ∧
    (upd.verified = none → u2.verified = u.verified) ∧
    (∀ v, upd.verified = some v → u2.verified = v) ∧
    (upd.scope = none → u2.scope = u.scope) ∧
    (∀ v, upd.scope = some v → u2.scope = v) := by
  have heq : u2 = User.update u upd := by
    unfold update_user at hupd
    rw [hget] at hupd
    have hp : (User.update u upd,
        { db with users := db.users.map (fun v => if v.id == uid then User.update u upd else v) }) =
        (u2, db2) := by
      exact Except.ok.inj hupd
    exact (congrArg Prod.fst hp).symm
  subst heq
  refine ⟨rfl, ?_, ?_, ?_, ?_, ?_, ?_, ?_, ?_, ?_, ?_⟩ <;>
    first
      | (intro h; simp [User.update, h])
      | (intro v h; simp [User.update, h])

/-- Witness for C7: an update providing only the name changes the name and
leaves the email of the stored subject unchanged. -/
theorem c7_partial_update_witness :
    (User.mk 1 "b" "a@x" (hashPassword "pw") true [Role.USER]).name = "b" ∧
    (User.mk 1 "b" "a@x" (hashPassword "pw") true [Role.USER]).email =
      (User.mk 1 "a" "a@x" (hashPassword "pw") true [Role.USER]).email :=
  ⟨(c7_partial_update
      ⟨[⟨1, "a", "a@x", hashPassword "pw", true, [Role.USER]⟩], []⟩ 1
      ⟨some "b", none, none, none, none⟩
      ⟨1, "a", "a@x", hashPassword "pw", true, [Role.USER]⟩
      ⟨1, "b", "a@x", hashPassword "pw", true, [Role.USER]⟩
      ⟨[⟨1, "b", "a@x", hashPassword "pw", true, [Role.USER]⟩], []⟩
      rfl rfl).2.2.1 "b" rfl,
   (c7_partial_update
      ⟨[⟨1, "a", "a@x", hashPassword "pw", true, [Role.USER]⟩], []⟩ 1
      ⟨some "b", none, none, none, none⟩
      ⟨1, "a", "a@x", hashPassword "pw", true, [Role.USER]⟩
      ⟨1, "b", "a@x", hashPassword "pw", true, [Role.USER]⟩
      ⟨[⟨1, "b", "a@x", hashPassword "pw", true, [Role.USER]⟩], []⟩
      rfl rfl).2.2.2.1 rfl⟩

/-- Claim C8: create_user fails with conflict exactly when a subject with
the same email already exists, and in that case the store is unchanged and
no side effect — no save, no reset email — is produced. -/
theorem c8_create_user_conflict (db : DB) (user_in : UserIn) (freshId : Nat)
    (send_email : Bool) :
    ((∃ u ∈ db.users, u.email = user_in.email) ↔
      (create_user db user_in freshId send_email).1 = Except.error Err.conflict) ∧
    ((create_user db user_in freshId send_email).1 = Except.error Err.conflict →
      create_user db user_in freshId send_email = (Except.error Err.conflict, db, [])) := by
  cases hfind : User.find db user_in.email with
  | none =>
    have hok : (create_user db user_in freshId send_email).1 =
        Except.ok ⟨freshId, user_in.name, user_in.email,
          hashPassword user_in.password, false, []⟩ := by
      unfold create_user
      rw [hfind]
    have hnone : ¬ ∃ u ∈ db.users, u.email = user_in.email := by
      rw [User.find, List.find?_eq_none] at hfind
      rintro ⟨u, hu, he⟩
      exact hfind u hu (by simp [he])
    constructor
    · constructor
      · intro h; exact absurd h hnone
      · intro h; rw [hok] at h; exact Except.noConfusion h
    · intro h; rw [hok] at h; exact Except.noConfusion h
  | some u =>
    have heq : create_user db user_in freshId send_email =
        (Except.error Err.conflict, db, []) := by
      unfold create_user
      rw [hfind]
    constructor
    · constructor
      · intro _; rw [heq]
      · intro _
        refine ⟨u, List.mem_of_find?_eq_some hfind, ?_⟩
        have := List.find?_some hfind
        simpa using this
    · intro _; exact heq

/-- Witness for C8: creating a subject at an already-registered email on a
concrete store yields conflict and leaves the store and the side-effect
trace empty of changes. -/
theorem c8_create_user_conflict_witness :
    create_user ⟨[⟨1, "a", "a@x", hashPassword "pw", true, []⟩], []⟩
        ⟨"b", "a@x", "pw2"⟩ 5 true =
      (Except.error Err.conflict,
        ⟨[⟨1, "a", "a@x", hashPassword "pw", true, []⟩], []⟩, []) :=
  (c8_create_user_conflict ⟨[⟨1, "a", "a@x", hashPassword "pw", true, []⟩], []⟩
      ⟨"b", "a@x", "pw2"⟩ 5 true).2
    ((c8_create_user_conflict ⟨[⟨1, "a", "a@x", hashPassword "pw", true, []⟩], []⟩
        ⟨"b", "a@x", "pw2"⟩ 5 true).1.mp
      ⟨⟨1, "a", "a@x", hashPassword "pw", true, []⟩, by decide, by decide⟩)

/-- Claim C10: when the email is free, create_user called with its default
send_email (true) saves the subject and then requests the reset-password
email for the saved address, in that order; called with send_email false
it saves the subject and produces no email side effect. -/
theorem c10_create_user_email_side_effect (db : DB) (user_in : UserIn)
    (freshId : Nat) (hnone : User.find db user_in.email = none) :
    create_user db user_in freshId =
      (Except.ok ⟨freshId, user_in.name, user_in.email,
          hashPassword user_in.password, false, []⟩,
        User.save db ⟨freshId, user_in.name, user_in.email,
          hashPassword user_in.password, false, []⟩,
        [Ev.saved freshId, Ev.emailRequested user_in.email]) ∧
    create_user db user_in freshId false =
      (Except.ok ⟨freshId, user_in.name, user_in.email,
          hashPassword user_in.password, false, []⟩,
        User.save db ⟨freshId, user_in.name, user_in.email,
          hashPassword user_in.password, false, []⟩,
        [Ev.saved freshId]) := by
  constructor
  · unfold create_user
    rw [hnone]
    rfl
  · unfold create_user
    rw [hnone]
    rfl

/-- Witness for C10 on a concrete empty store: the default call records
the save followed by the email request; the send_email false call records
only the save. -/
theorem c10_create_user_email_side_effect_witness :
    create_user ⟨[], []⟩ ⟨"a", "a@x", "pw"⟩ 1 =
      (Except.ok ⟨1, "a", "a@x", hashPassword "pw", false, []⟩,
        User.save ⟨[], []⟩ ⟨1, "a", "a@x", hashPassword "pw", false, []⟩,
        [Ev.saved 1, Ev.emailRequested "a@x"]) ∧
    create_user ⟨[], []⟩ ⟨"a", "a@x", "pw"⟩ 1 false =
      (Except.ok ⟨1, "a", "a@x", hashPassword "pw", false, []⟩,
        User.save ⟨[], []⟩ ⟨1, "a", "a@x", hashPassword "pw", false, []⟩,
        [Ev.saved 1]) :=
  c10_create_user_email_side_effect ⟨[], []⟩ ⟨"a", "a@x", "pw"⟩ 1 rfl

end AccessControl
